import Mathlib

/-!
# A shallow embedding of `resurrect.py`

This file embeds the `Resurrect` re-dispatch scheduler (`src/resurrect.py`)
in Lean 4 and proves properties of its operations.

Modelling conventions:

* A Python `dict[str, str]` environment is an insertion-ordered association
  list `List (String × String)`; `envInsert` mirrors `d[k] = v` (replace in
  place, else append) and `envUpdate` mirrors `d.update(other)` (sequential
  assignment of the other dict's items).  Python dicts have pairwise
  distinct keys, captured by the `envWf` predicate where it matters.
* `datetime.timedelta` is modelled for the nonnegative durations the code
  uses, normalized into whole days plus seconds-within-a-day exactly as
  Python normalizes (`Timedelta.ofSeconds`); microseconds are omitted since
  the code never reads them.  Python truthiness of a `timedelta`
  (`timedelta(0)` is falsy) is `Timedelta.truthy`.
* Exceptions become an explicit `ResurrectError` value; functions that can
  raise return `Except ResurrectError _`.
* `os.kill` is modelled by an `alive : Nat → Bool` oracle: the call succeeds
  iff the target pid exists, otherwise it raises `ProcessLookupError`.
  `Resurrect.stop` returns the resulting stored state (unchanged when an
  exception escapes), the outcome, and the list of kill system calls
  attempted (pid, signal).
* Spawning (`multiprocessing.Process` / `subprocess.Popen`) is represented
  by the `SpawnedProc` value describing what is launched; the OS-assigned
  pid of the new process is a parameter `newPid` of `Resurrect.start`.
* `os.environ` and `os.getenv('JUJU_CHARM_DIR')` are parameters
  (`osEnviron`, `charmDir`); logging calls have no observable effect and
  are dropped.
-/

/-- A Python `dict[str, str]`: an insertion-ordered association list. -/
abbrev Env : Type := List (String × String)

/-- Python dict lookup: the value stored at `key`, if present. -/
def envFind : Env → String → Option String
  | [], _ => none
  | (k, v) :: rest, key => if k = key then some v else envFind rest key

/-- Python dict assignment `d[key] = v`: replace the entry in place if the
key is present (keeping its position), otherwise append a new entry. -/
def envInsert : Env → String → String → Env
  | [], key, v => [(key, v)]
  | (k, w) :: rest, key, v =>
    if k = key then (key, v) :: rest else (k, w) :: envInsert rest key v

/-- Python `base.update(override)`: assign each of `override`'s items into
`base` in order. -/
def envUpdate (base : Env) : Env → Env
  | [] => base
  | (k, v) :: rest => envUpdate (envInsert base k v) rest

/-- Well-formedness of an association list as a model of a Python dict:
keys are pairwise distinct. -/
def envWf (e : Env) : Prop := (e.map Prod.fst).Nodup

instance (e : Env) : Decidable (envWf e) := by unfold envWf; infer_instance

/-- Model of `datetime.timedelta` for nonnegative durations: whole days plus
the seconds-within-a-day component, as normalized by Python (microseconds
omitted; the code never reads them). -/
structure Timedelta where
  days : Nat
  seconds : Nat
deriving DecidableEq

/-- Build the normalized `timedelta` for a duration of `n` seconds, as
`datetime.timedelta(seconds=n)` does. -/
def Timedelta.ofSeconds (n : Nat) : Timedelta :=
  { days := n / 86400, seconds := n % 86400 }

/-- The full duration in seconds (what `td.total_seconds()` reports, for the
integral durations modelled here). -/
def Timedelta.totalSeconds (td : Timedelta) : Nat :=
  td.days * 86400 + td.seconds

/-- Python truthiness of a `timedelta`: `timedelta(0)` is falsy. -/
def Timedelta.truthy (td : Timedelta) : Bool :=
  !(td.days == 0 && td.seconds == 0)

/-- Python truthiness of an `Optional[timedelta]` (`None` is falsy). -/
def optTdTruthy : Option Timedelta → Bool
  | none => false
  | some td => td.truthy

/-- Python truthiness of an `Optional[int]` pid (`None` and `0` are falsy). -/
def optPidTruthy : Option Nat → Bool
  | none => false
  | some n => n != 0

/-- The module-level constant `juju_dispatch_path`. -/
def juju_dispatch_path : String := "JUJU_DISPATCH_PATH"

/-- The module-level constant `operator_dispatch`. -/
def operator_dispatch : String := "OPERATOR_DISPATCH"

/-- The exceptions the module can raise, by Python class. -/
inductive ResurrectError where
  /-- `ValueError` raised by `Resurrect.__init__`. -/
  | valueError
  /-- `NotStarted` raised by `Resurrect.stop`. -/
  | notStarted
  /-- `ProcessLookupError` raised by `os.kill` on a nonexistent pid. -/
  | processLookupError
  /-- `RuntimeError` raised by `Resurrect.start` with no strategy configured. -/
  | runtimeError
deriving DecidableEq

/-- The `StoredState` slot of a `Resurrect` instance: the captured
environment and the pid of the outstanding process, if any. -/
structure StoredState where
  env : Env
  pid : Option Nat
deriving DecidableEq

/-- The constructor arguments of `Resurrect` (after `parent`/`key`):
`check_method` is the Python truthiness of the callable argument
(`None` is falsy, any callable is truthy). -/
structure Config where
  oneshot : Option Timedelta
  every : Option Timedelta
  check_method : Bool
  allow_empty_env : Bool
deriving DecidableEq

/-- What `Resurrect.start` launches. -/
inductive SpawnedProc where
  /-- `multiprocessing.Process(target=self._proc_runner, ...)`: runs the
  check function with `os.environ` replaced by `env`, then touches
  `dispatch_path`. -/
  | procRunner (dispatch_path : String) (env : Env)
  /-- `subprocess.Popen(args, env=env, shell=shell)` with an argument list. -/
  | popenArgs (args : List String) (env : Env) (shell : Bool)
  /-- `subprocess.Popen(command, env=env, shell=shell)` with a command string. -/
  | popenShell (command : String) (env : Env) (shell : Bool)
deriving DecidableEq

/-- The environment the spawned process is given. -/
def SpawnedProc.envOf : SpawnedProc → Env
  | .procRunner _ e => e
  | .popenArgs _ e _ => e
  | .popenShell _ e _ => e

/-- Python `repr` of a plain string without quotes or escapes in it, as
produced by the `!r` format spec. -/
def pyRepr (s : String) : String := "'" ++ s ++ "'"

/-- Split a character list at spaces; `cur` accumulates the piece being
read (in reverse).  Helper for `pySplit`. -/
def splitChars : List Char → List Char → List (List Char)
  | [], cur => [cur.reverse]
  | c :: rest, cur =>
    if c = ' ' then cur.reverse :: splitChars rest []
    else splitChars rest (c :: cur)

/-- Python `str.split()` (no separator argument): split on runs of
whitespace, dropping empty pieces.  The commands the code builds contain
spaces as their only whitespace, so splitting at spaces is exact. -/
def pySplit (s : String) : List String :=
  ((splitChars s.data []).filter (fun cs => !cs.isEmpty)).map
    (fun cs => String.mk cs)

namespace Resurrect

/-- The argument validation of `Resurrect.__init__`, followed by
`self._stored.set_default(env={}, pid=None)`:
`if not check_method or not (oneshot or every) or (oneshot and every):
raise ValueError(...)`. -/
def init (cfg : Config) : Except ResurrectError (Config × StoredState) :=
  if !cfg.check_method || !(optTdTruthy cfg.oneshot || optTdTruthy cfg.every)
      || (optTdTruthy cfg.oneshot && optTdTruthy cfg.every) then
    Except.error ResurrectError.valueError
  else
    Except.ok (cfg, { env := [], pid := none })

/-- `is_started`: `return self._stored.pid`.  The Python caller uses the
returned optional pid both as a boolean (via truthiness) and as a value. -/
def is_started (st : StoredState) : Option Nat := st.pid

/-- `prime(override, overwrite=False, use_os_env=True)`.  The
already-started and already-primed checks only log; `overwrite` has no
effect beyond logging.  `new_env = dict(os.environ) if use_os_env else {}`,
then `new_env.update(override or {})`, stored into `self._stored.env`. -/
def prime (osEnviron : Env) (override : Option Env) (overwrite : Bool)
    (use_os_env : Bool) (st : StoredState) : Except ResurrectError StoredState :=
  let ov := override.getD []
  let new_env := envUpdate (if use_os_env then osEnviron else []) ov
  Except.ok { st with env := new_env }

/-- Whether `start`'s `if not env:` branch replaces the argument by the
stored environment (`None` and the empty dict are falsy). -/
def usedStoredEnv (env : Option Env) : Bool :=
  match env with
  | none => true
  | some e => e.isEmpty

/-- The effective environment `start` works with after `if not env:
env = self._stored.env`. -/
def effectiveEnv (env : Option Env) (st : StoredState) : Env :=
  match env with
  | none => st.env
  | some e => if e.isEmpty then st.env else e

/-- The two assignments `env[juju_dispatch_path] = "hooks/resurrect"` and
`env[operator_dispatch] = "1"` performed by `start` on the effective
environment. -/
def startEnv (e : Env) : Env :=
  envInsert (envInsert e juju_dispatch_path "hooks/resurrect") operator_dispatch "1"

/-- `td.seconds` of an optional timedelta; only evaluated by `start` in
branches where the option is present. -/
def optSeconds : Option Timedelta → Nat
  | none => 0
  | some td => td.seconds

/-- `start(env=None)`.  `charmDir` is `os.getenv('JUJU_CHARM_DIR')`;
`newPid` is the OS-assigned pid of whichever process gets spawned.  Returns
the spawned process description, the returned pid, and the new stored
state.  When the effective environment is the stored dict, the in-place
dispatch-key assignments also update the stored environment (aliasing). -/
def start (charmDir : String) (newPid : Nat) (env : Option Env) (st : StoredState)
    (cfg : Config) : Except ResurrectError (SpawnedProc × Nat × StoredState) :=
  let env2 := startEnv (effectiveEnv env st)
  let execute_charm := charmDir ++ "/dispatch"
  let st' : StoredState :=
    { env := if usedStoredEnv env then env2 else st.env, pid := some newPid }
  if cfg.check_method then
    Except.ok (SpawnedProc.procRunner execute_charm env2, newPid, st')
  else if optTdTruthy cfg.every || optTdTruthy cfg.oneshot then
    if optTdTruthy cfg.every then
      Except.ok (SpawnedProc.popenArgs
        (pySplit ("watch -n " ++ toString (optSeconds cfg.every) ++ " "
          ++ pyRepr execute_charm))
        env2 (optTdTruthy cfg.oneshot), newPid, st')
    else
      Except.ok (SpawnedProc.popenShell
        ("sleep " ++ toString (optSeconds cfg.oneshot) ++ "; " ++ execute_charm)
        env2 (optTdTruthy cfg.oneshot), newPid, st')
  else
    Except.error ResurrectError.runtimeError

/-- `pid = pid if pid is not None else self._stored.pid` in `stop`. -/
def resolvedPid (pidArg : Option Nat) (st : StoredState) : Option Nat :=
  match pidArg with
  | some p => some p
  | none => st.pid

/-- `stop(pid=None, sig=signal.SIGKILL)`.  Returns the stored state after
the call (unchanged when an exception escapes), the outcome, and the kill
system calls attempted as (pid, signal) pairs.  `os.kill` succeeds iff
`alive pid`; on failure `ProcessLookupError` escapes before
`self._stored.pid = None` runs. -/
def stop (alive : Nat → Bool) (pidArg : Option Nat) (sig : Nat) (st : StoredState) :
    StoredState × Except ResurrectError Unit × List (Nat × Nat) :=
  match resolvedPid pidArg st with
  | none => (st, Except.error ResurrectError.notStarted, [])
  | some p =>
    if alive p then ({ st with pid := none }, Except.ok (), [(p, sig)])
    else (st, Except.error ResurrectError.processLookupError, [(p, sig)])

end Resurrect

/-! ## Lemmas about the environment model -/

theorem envFind_insert (e : Env) (k v key : String) :
    envFind (envInsert e k v) key = if key = k then some v else envFind e key := by
  induction e with
  | nil =>
    by_cases h : key = k
    · subst h; simp [envInsert, envFind]
    · simp [envInsert, envFind, h, Ne.symm h]
  | cons hd tl ih =>
    obtain ⟨k0, w0⟩ := hd
    by_cases h1 : k0 = k
    · subst h1
      by_cases h2 : key = k0
      · subst h2; simp [envInsert, envFind]
      · simp [envInsert, envFind, h2, Ne.symm h2]
    · by_cases h2 : k0 = key
      · subst h2
        simp [envInsert, envFind, h1, Ne.symm h1]
      · simp [envInsert, envFind, h1, h2, ih]

theorem envFind_eq_none_of_not_mem (e : Env) (key : String)
    (h : key ∉ e.map Prod.fst) : envFind e key = none := by
  induction e with
  | nil => rfl
  | cons hd tl ih =>
    obtain ⟨k, w⟩ := hd
    simp only [List.map_cons, List.mem_cons] at h
    push_neg at h
    have : ¬k = key := fun h' => h.1 h'.symm
    simp [envFind, this, ih h.2]

theorem envFind_update (ov : Env) (base : Env) (key : String) (h : envWf ov) :
    envFind (envUpdate base ov) key =
      match envFind ov key with
      | some v => some v
      | none => envFind base key := by
  induction ov generalizing base with
  | nil => simp [envUpdate, envFind]
  | cons hd tl ih =>
    obtain ⟨k, v⟩ := hd
    simp only [envWf, List.map_cons, List.nodup_cons] at h
    have hwf : envWf tl := h.2
    have hk : k ∉ tl.map Prod.fst := h.1
    show envFind (envUpdate (envInsert base k v) tl) key = _
    rw [ih _ hwf]
    by_cases h2 : key = k
    · subst h2
      rw [envFind_eq_none_of_not_mem tl key hk]
      simp [envFind, envFind_insert]
    · have : ¬k = key := fun h' => h2 h'.symm
      cases hf : envFind tl key <;>
        simp [envFind, this, envFind_insert, h2, hf]

/-! ## Shared facts about `start` -/

/-- On every successful path, `start` returns `newPid`, records it in the
stored state, and gives the spawned process the effective environment with
the two dispatch keys assigned. -/
theorem Resurrect.start_ok_spec (charmDir : String) (newPid : Nat) (env : Option Env)
    (st : StoredState) (cfg : Config) (proc : SpawnedProc) (p : Nat) (st' : StoredState)
    (h : Resurrect.start charmDir newPid env st cfg = Except.ok (proc, p, st')) :
    p = newPid ∧ st'.pid = some newPid ∧
      SpawnedProc.envOf proc = Resurrect.startEnv (Resurrect.effectiveEnv env st) := by
  simp only [Resurrect.start] at h
  split at h
  · cases h
    exact ⟨rfl, rfl, rfl⟩
  · split at h
    · split at h
      · cases h
        exact ⟨rfl, rfl, rfl⟩
      · cases h
        exact ⟨rfl, rfl, rfl⟩
    · cases h

/-! ## Claims -/

/-- C1: the claim states that construction succeeds exactly when exactly one
of check_method, oneshot, every is set.  The code's validation
(`if not check_method or not (oneshot or every) or (oneshot and every)`)
instead requires check_method together with exactly one of oneshot/every,
contradicting its own error message "provide one of check_method, oneshot,
or every": a configuration setting only `oneshot=timedelta(seconds=5)`
(exactly one option) raises ValueError, while a configuration setting both
check_method and oneshot (two options) constructs successfully. -/
theorem C1_init_validation_bug :
    (optTdTruthy (some (Timedelta.ofSeconds 5)) = true ∧
      Resurrect.init ⟨some (Timedelta.ofSeconds 5), none, false, false⟩ =
        Except.error ResurrectError.valueError) ∧
    Resurrect.init ⟨some (Timedelta.ofSeconds 5), none, true, false⟩ =
      Except.ok (⟨some (Timedelta.ofSeconds 5), none, true, false⟩,
        ⟨[], none⟩) :=
  ⟨⟨rfl, rfl⟩, rfl⟩

/-- C3: with no stored pid and no explicit pid argument, `stop` raises
`NotStarted`: it leaves the state unchanged, and attempts no kill system
call whatsoever (the result is the same for every `alive` oracle and every
signal). -/
theorem C3_stop_without_pid_raises_not_started (st : StoredState)
    (alive : Nat → Bool) (sig : Nat) (h : st.pid = none) :
    Resurrect.stop alive none sig st =
      (st, Except.error ResurrectError.notStarted, []) := by
  simp [Resurrect.stop, Resurrect.resolvedPid, h]

theorem C3_stop_without_pid_raises_not_started_witness :
    (⟨[], none⟩ : StoredState).pid = none ∧
      Resurrect.stop (fun _ => true) none 9 ⟨[], none⟩ =
        (⟨[], none⟩, Except.error ResurrectError.notStarted, []) :=
  ⟨rfl, C3_stop_without_pid_raises_not_started ⟨[], none⟩ (fun _ => true) 9 rfl⟩

/-- C4 counterexample: the claim states that `stop` clears the stored pid
even when sending the signal fails because the target process no longer
exists.  In the code `os.kill(pid, sig)` runs before
`self._stored.pid = None`, so when the kill raises `ProcessLookupError`
the assignment is never reached: stopping state `{env={}, pid=42}` while
pid 42 is dead leaves the pid stored and `is_started()` still truthy. -/
theorem C4_failed_signal_keeps_pid :
    Resurrect.stop (fun _ => false) none 9 ⟨[], some 42⟩ =
      (⟨[], some 42⟩, Except.error ResurrectError.processLookupError,
        [(42, 9)]) ∧
    optPidTruthy (Resurrect.is_started ⟨[], some 42⟩) = true :=
  ⟨rfl, rfl⟩

/-- C4 (amended): for every state with a resolvable process identity, after
a `stop` call in which sending the signal succeeds, the stored pid is
cleared and `is_started()` is falsy; when sending the signal fails because
the target process no longer exists, the error propagates and the pid
remains stored (see the counterexample). -/
theorem C4_stop_clears_pid_when_signal_succeeds (alive : Nat → Bool)
    (pidArg : Option Nat) (sig : Nat) (st : StoredState) (p : Nat)
    (hres : Resurrect.resolvedPid pidArg st = some p)
    (halive : alive p = true) :
    Resurrect.stop alive pidArg sig st =
      ({ st with pid := none }, Except.ok (), [(p, sig)]) ∧
    optPidTruthy (Resurrect.is_started { st with pid := none }) = false := by
  constructor
  · simp [Resurrect.stop, hres, halive]
  · rfl

theorem C4_stop_clears_pid_when_signal_succeeds_witness :
    Resurrect.stop (fun _ => true) none 9 ⟨[], some 42⟩ =
      (⟨[], none⟩, Except.ok (), [(42, 9)]) ∧
    optPidTruthy (Resurrect.is_started ⟨[], none⟩) = false :=
  C4_stop_clears_pid_when_signal_succeeds (fun _ => true) none 9
    ⟨[], some 42⟩ 42 rfl rfl

/-- C6: every successful call to `start` returns exactly the pid of the
spawned process, and afterwards `is_started()` yields that same identity
(truthy, since OS pids of spawned children are nonzero), which is also the
identity recorded in the stored state. -/
theorem C6_start_records_returned_pid (charmDir : String) (newPid : Nat)
    (envArg : Option Env) (st : StoredState) (cfg : Config)
    (proc : SpawnedProc) (p : Nat) (st' : StoredState)
    (hstart : Resurrect.start charmDir newPid envArg st cfg =
      Except.ok (proc, p, st'))
    (hpid : newPid ≠ 0) :
    Resurrect.is_started st' = some p ∧
      optPidTruthy (Resurrect.is_started st') = true ∧
      st'.pid = some p := by
  obtain ⟨hp, hpid', -⟩ :=
    Resurrect.start_ok_spec charmDir newPid envArg st cfg proc p st' hstart
  subst hp
  refine ⟨hpid', ?_, hpid'⟩
  simp [Resurrect.is_started, hpid', optPidTruthy, hpid]

theorem C6_start_records_returned_pid_witness :
    Resurrect.is_started ⟨Resurrect.startEnv [], some 7⟩ = some 7 ∧
      optPidTruthy (Resurrect.is_started ⟨Resurrect.startEnv [], some 7⟩) = true ∧
      (⟨Resurrect.startEnv [], some 7⟩ : StoredState).pid = some 7 :=
  C6_start_records_returned_pid "/charm" 7 none ⟨[], none⟩
    ⟨none, none, true, true⟩
    (SpawnedProc.procRunner "/charm/dispatch" (Resurrect.startEnv [])) 7
    ⟨Resurrect.startEnv [], some 7⟩ rfl (by decide)

/-- C2 counterexample: the claim states that prime-then-start (no explicit
env) launches with exactly the merge of base and override.  With base empty
(`use_os_env=False`) and an empty override, the merge stored by `prime` is
the empty dict, yet `start` launches the process with an environment whose
`JUJU_DISPATCH_PATH` entry is `"hooks/resurrect"`, a binding absent from
the merge: the launch environment is not the exact merge. -/
theorem C2_spawn_env_not_exact_merge :
    Resurrect.prime [] (some []) false false ⟨[], none⟩ =
      Except.ok ⟨[], none⟩ ∧
    Resurrect.start "/charm" 7 none ⟨[], none⟩
        ⟨some (Timedelta.ofSeconds 5), none, false, true⟩ =
      Except.ok (SpawnedProc.popenShell "sleep 5; /charm/dispatch"
          [(juju_dispatch_path, "hooks/resurrect"), (operator_dispatch, "1")]
          true,
        7,
        ⟨[(juju_dispatch_path, "hooks/resurrect"), (operator_dispatch, "1")],
          some 7⟩) ∧
    envFind [(juju_dispatch_path, "hooks/resurrect"), (operator_dispatch, "1")]
        juju_dispatch_path ≠ envFind ([] : Env) juju_dispatch_path :=
  ⟨rfl, rfl, by decide⟩

/-- C2 (amended): for every base environment and override mapping, `prime`
followed by `start` with no explicit env argument launches the spawned
process with the environment obtained by taking the base (the process
environment when `use_os_env` is true, else empty), merging the override on
top (override keys win over base keys), and then overwriting the two
dispatch keys: `JUJU_DISPATCH_PATH` to `"hooks/resurrect"` and
`OPERATOR_DISPATCH` to `"1"`. -/
theorem C2_prime_start_launch_env (osEnv ov : Env) (overwrite use_os_env : Bool)
    (st st2 : StoredState) (charmDir : String) (newPid : Nat) (cfg : Config)
    (proc : SpawnedProc) (p : Nat) (st' : StoredState) (key : String)
    (hwf : envWf ov)
    (hprime : Resurrect.prime osEnv (some ov) overwrite use_os_env st =
      Except.ok st2)
    (hstart : Resurrect.start charmDir newPid none st2 cfg =
      Except.ok (proc, p, st')) :
    envFind (SpawnedProc.envOf proc) key =
      if key = operator_dispatch then some "1"
      else if key = juju_dispatch_path then some "hooks/resurrect"
      else
        match envFind ov key with
        | some v => some v
        | none => envFind (if use_os_env then osEnv else []) key := by
  obtain ⟨-, -, henv⟩ :=
    Resurrect.start_ok_spec charmDir newPid none st2 cfg proc p st' hstart
  have h2 : st2.env = envUpdate (if use_os_env then osEnv else []) ov := by
    simp only [Resurrect.prime, Option.getD] at hprime
    cases hprime
    rfl
  rw [henv]
  show envFind (Resurrect.startEnv st2.env) key = _
  rw [Resurrect.startEnv, envFind_insert]
  by_cases hod : key = operator_dispatch
  · simp [hod]
  · rw [if_neg hod, if_neg hod, envFind_insert]
    by_cases hjdp : key = juju_dispatch_path
    · simp [hjdp]
    · rw [if_neg hjdp, if_neg hjdp, h2, envFind_update ov _ key hwf]

theorem C2_prime_start_launch_env_witness :
    envFind (SpawnedProc.envOf (SpawnedProc.popenShell "sleep 5; /charm/dispatch"
        [("PATH", "/override"), ("CUSTOM_ENV_VAR", "foo"),
         (juju_dispatch_path, "hooks/resurrect"), (operator_dispatch, "1")]
        true)) "PATH" = some "/override" :=
  C2_prime_start_launch_env [("PATH", "/bin")]
    [("CUSTOM_ENV_VAR", "foo"), ("PATH", "/override")] false true
    ⟨[], none⟩
    ⟨[("PATH", "/override"), ("CUSTOM_ENV_VAR", "foo")], none⟩
    "/charm" 3 ⟨some (Timedelta.ofSeconds 5), none, false, true⟩
    (SpawnedProc.popenShell "sleep 5; /charm/dispatch"
      [("PATH", "/override"), ("CUSTOM_ENV_VAR", "foo"),
       (juju_dispatch_path, "hooks/resurrect"), (operator_dispatch, "1")]
      true)
    3
    ⟨[("PATH", "/override"), ("CUSTOM_ENV_VAR", "foo"),
      (juju_dispatch_path, "hooks/resurrect"), (operator_dispatch, "1")],
      some 3⟩
    "PATH" (by decide) rfl rfl

/-- C5: whenever `start` succeeds, the environment given to the spawned
process preserves every binding of the effective environment at keys other
than the two dispatch keys (in particular every primed key such as
`CUSTOM_ENV_VAR=foo` survives), has `JUJU_DISPATCH_PATH` overwritten to the
scheduler's own hook path `"hooks/resurrect"`, and has `OPERATOR_DISPATCH`
set to the string `"1"`. -/
theorem C5_spawn_env_dispatch_markers (charmDir : String) (newPid : Nat)
    (envArg : Option Env) (st : StoredState) (cfg : Config)
    (proc : SpawnedProc) (p : Nat) (st' : StoredState) (key v : String)
    (hstart : Resurrect.start charmDir newPid envArg st cfg =
      Except.ok (proc, p, st'))
    (hk1 : key ≠ juju_dispatch_path) (hk2 : key ≠ operator_dispatch)
    (hfind : envFind (Resurrect.effectiveEnv envArg st) key = some v) :
    envFind (SpawnedProc.envOf proc) key = some v ∧
    envFind (SpawnedProc.envOf proc) juju_dispatch_path =
      some "hooks/resurrect" ∧
    envFind (SpawnedProc.envOf proc) operator_dispatch = some "1" := by
  obtain ⟨-, -, henv⟩ :=
    Resurrect.start_ok_spec charmDir newPid envArg st cfg proc p st' hstart
  rw [henv, Resurrect.startEnv]
  refine ⟨?_, ?_, ?_⟩
  · rw [envFind_insert, if_neg hk2, envFind_insert, if_neg hk1, hfind]
  · rw [envFind_insert,
      if_neg (by decide : ¬juju_dispatch_path = operator_dispatch),
      envFind_insert, if_pos rfl]
  · rw [envFind_insert, if_pos rfl]

theorem C5_spawn_env_dispatch_markers_witness :
    envFind (SpawnedProc.envOf (SpawnedProc.popenShell "sleep 5; /charm/dispatch"
        [("CUSTOM_ENV_VAR", "foo"), (juju_dispatch_path, "hooks/resurrect"),
         (operator_dispatch, "1")] true)) "CUSTOM_ENV_VAR" = some "foo" ∧
    envFind (SpawnedProc.envOf (SpawnedProc.popenShell "sleep 5; /charm/dispatch"
        [("CUSTOM_ENV_VAR", "foo"), (juju_dispatch_path, "hooks/resurrect"),
         (operator_dispatch, "1")] true)) juju_dispatch_path =
      some "hooks/resurrect" ∧
    envFind (SpawnedProc.envOf (SpawnedProc.popenShell "sleep 5; /charm/dispatch"
        [("CUSTOM_ENV_VAR", "foo"), (juju_dispatch_path, "hooks/resurrect"),
         (operator_dispatch, "1")] true)) operator_dispatch = some "1" :=
  C5_spawn_env_dispatch_markers "/charm" 7 none
    ⟨[("CUSTOM_ENV_VAR", "foo")], none⟩
    ⟨some (Timedelta.ofSeconds 5), none, false, true⟩
    (SpawnedProc.popenShell "sleep 5; /charm/dispatch"
      [("CUSTOM_ENV_VAR", "foo"), (juju_dispatch_path, "hooks/resurrect"),
       (operator_dispatch, "1")] true)
    7
    ⟨[("CUSTOM_ENV_VAR", "foo"), (juju_dispatch_path, "hooks/resurrect"),
      (operator_dispatch, "1")], some 7⟩
    "CUSTOM_ENV_VAR" "foo" rfl (by decide) (by decide) rfl

/-- Helper: the sleep-command prefix built from the numeral 5 evaluates to
the literal string. -/
theorem sleep_five_concat (s : String) :
    "sleep " ++ toString (5 : Nat) ++ "; " ++ s = "sleep 5; " ++ s := by
  congr 1

/-- C7: with a one-shot configuration of 5 seconds, `start` spawns via
shell evaluation (`Popen(..., shell=True)`) the command
`sleep 5; <JUJU_CHARM_DIR>/dispatch`, which sleeps 5 seconds and then
invokes the host dispatch entrypoint exactly once. -/
theorem C7_oneshot_spawns_shell_sleep_then_dispatch (charmDir : String)
    (newPid : Nat) (st : StoredState) (aev : Bool) :
    Resurrect.start charmDir newPid none st
        ⟨some (Timedelta.ofSeconds 5), none, false, aev⟩ =
      Except.ok (SpawnedProc.popenShell
          ("sleep 5; " ++ (charmDir ++ "/dispatch"))
          (Resurrect.startEnv st.env) true,
        newPid, ⟨Resurrect.startEnv st.env, some newPid⟩) := by
  rw [← sleep_five_concat (charmDir ++ "/dispatch")]
  rfl

/-- C8: `prime` never raises, also when the instance is already primed with
`overwrite` false or when a run appears outstanding: it proceeds, and the
stored environment afterwards is exactly the newly computed merge of the
base (the process environment when `use_os_env`, else empty) with the
override on top — last write wins, whatever the `overwrite` flag. -/
theorem C8_reprime_never_raises_last_write_wins (osEnv ov : Env)
    (overwrite use_os_env : Bool) (st : StoredState)
    (h : (st.env.isEmpty = false ∧ overwrite = false) ∨
      optPidTruthy st.pid = true) :
    Resurrect.prime osEnv (some ov) overwrite use_os_env st =
      Except.ok ⟨envUpdate (if use_os_env then osEnv else []) ov, st.pid⟩ :=
  rfl

theorem C8_reprime_never_raises_last_write_wins_witness :
    ((([("A", "1")] : Env).isEmpty = false ∧ false = false) ∨
      optPidTruthy (some 42) = true) ∧
    Resurrect.prime [("B", "2")] (some [("A", "3")]) false true
        ⟨[("A", "1")], some 42⟩ =
      Except.ok ⟨[("B", "2"), ("A", "3")], some 42⟩ :=
  ⟨Or.inl ⟨rfl, rfl⟩,
    C8_reprime_never_raises_last_write_wins [("B", "2")] [("A", "3")]
      false true ⟨[("A", "1")], some 42⟩ (Or.inl ⟨rfl, rfl⟩)⟩

/-- C9: `start` called with an explicit empty environment mapping ignores
the argument and uses the stored primed environment instead (so the call
behaves exactly like `start()` with no argument), while an explicit
non-empty mapping takes precedence over the stored environment. -/
theorem C9_empty_explicit_env_ignored (st : StoredState) (e : Env)
    (charmDir : String) (newPid : Nat) (cfg : Config)
    (he : e.isEmpty = false) :
    Resurrect.effectiveEnv (some []) st = st.env ∧
    Resurrect.start charmDir newPid (some []) st cfg =
      Resurrect.start charmDir newPid none st cfg ∧
    Resurrect.effectiveEnv (some e) st = e := by
  refine ⟨rfl, rfl, ?_⟩
  simp [Resurrect.effectiveEnv, he]

theorem C9_empty_explicit_env_ignored_witness :
    (([("A", "b")] : Env).isEmpty = false) ∧
    (Resurrect.effectiveEnv (some []) ⟨[("X", "y")], none⟩ = [("X", "y")] ∧
      Resurrect.start "/charm" 7 (some []) ⟨[("X", "y")], none⟩
          ⟨some (Timedelta.ofSeconds 5), none, false, true⟩ =
        Resurrect.start "/charm" 7 none ⟨[("X", "y")], none⟩
          ⟨some (Timedelta.ofSeconds 5), none, false, true⟩ ∧
      Resurrect.effectiveEnv (some [("A", "b")]) ⟨[("X", "y")], none⟩ =
        [("A", "b")]) :=
  ⟨rfl, C9_empty_explicit_env_ignored ⟨[("X", "y")], none⟩ [("A", "b")]
    "/charm" 7 ⟨some (Timedelta.ofSeconds 5), none, false, true⟩ rfl⟩

/-- C10: the delay placed in the spawned command is `td.seconds`, the
seconds-within-a-day component of the configured timedelta, not its total
duration: for a duration of one day plus five seconds (total 86405
seconds), the one-shot command sleeps 5 seconds and the interval command
repeats every 5 seconds — the whole-day part is silently dropped. -/
theorem C10_day_component_silently_dropped :
    (∀ n : Nat, (Timedelta.ofSeconds n).seconds = n % 86400) ∧
    (Timedelta.ofSeconds (86400 + 5)).seconds = 5 ∧
    (Timedelta.ofSeconds (86400 + 5)).totalSeconds = 86405 ∧
    Resurrect.start "/charm" 7 none ⟨[], none⟩
        ⟨some (Timedelta.ofSeconds (86400 + 5)), none, false, true⟩ =
      Except.ok (SpawnedProc.popenShell "sleep 5; /charm/dispatch"
          (Resurrect.startEnv []) true, 7,
        ⟨Resurrect.startEnv [], some 7⟩) ∧
    Resurrect.start "/charm" 7 none ⟨[], none⟩
        ⟨none, some (Timedelta.ofSeconds (86400 + 5)), false, true⟩ =
      Except.ok (SpawnedProc.popenArgs
          ["watch", "-n", "5", "'/charm/dispatch'"]
          (Resurrect.startEnv []) false, 7,
        ⟨Resurrect.startEnv [], some 7⟩) :=
  ⟨fun _ => rfl, rfl, rfl, rfl, rfl⟩
